import Mathlib

/-!
Verification of the news-aggregation core of the News-room repository
(`src/api/headlines.js`, the three-strategy version: `fetchReliefWeb`,
`fetchDonorTracker`, `fetchRSS`, and the default-exported `handler`).

Modelling conventions
* JavaScript strings are `String`; `x || y` on strings (empty string falsy)
  is `jsOrStr` / `jsOrSS` / `jsOrOpt`; `String.prototype.includes` is
  `jsIncludes`; `toLowerCase`, `trim` and `replace(/\s+/g, " ")` are
  `jsToLower`, `jsTrim`, `collapseWs` (ASCII, which covers every string the
  program manipulates).
* A luxon `DateTime` is its instant, an `Int` of epoch milliseconds; a
  nullable `DateTime` is `Option Int`.  `DateTime.now()` is the parameter
  `now`, and `minus({days})` is subtraction of `days * 86400000` (fixed-length
  days; the timezone argument only selects a rendering and is dropped).
  `parseDate`'s three luxon parsers are an oracle `parse : String → Option Int`
  after the `if (!s) return null` guard (`parseDateM`).
* Network I/O is an environment: each strategy receives the decoded response
  it would have observed (`RWResponse`, scraped `Card` lists per candidate
  page, a `Feed` per candidate URL).  A thrown JS exception is `Except.error`
  carrying the error's `.message`.
* `new URL(u).hostname` is `hostOf` (text between `"://"` and the next `/`;
  an unparsable URL throws, modelled by `Except.error`).
-/

/-- `String.prototype.toLowerCase` (ASCII). -/
def jsToLower (s : String) : String := String.mk (s.data.map Char.toLower)

/-- Does `pat` occur as a contiguous substring of `s`?  (`[].isPrefixOf`
is `true`, so the empty pattern is found everywhere, as in JS.) -/
def containsSub (pat : List Char) : List Char → Bool
  | [] => pat.isEmpty
  | c :: t => pat.isPrefixOf (c :: t) || containsSub pat t

/-- `s.includes(pat)` for JS strings. -/
def jsIncludes (s pat : String) : Bool := containsSub pat.data s.data

/-- `s.startsWith(pre)` for JS strings. -/
def jsStartsWith (s pre : String) : Bool := pre.data.isPrefixOf s.data

/-- `a || b` where `a : string | undefined | null` and the result is a string:
`none` and `""` fall through to `b`. -/
def jsOrStr (a : Option String) (b : String) : String :=
  match a with
  | none => b
  | some s => if s = "" then b else s

/-- `a || b` on two plain strings (`""` falsy). -/
def jsOrSS (a b : String) : String := if a = "" then b else a

/-- `a || b` where both sides are `string | undefined` and falsy falls
through, keeping "no value" distinguishable. -/
def jsOrOpt (a b : Option String) : Option String :=
  match a with
  | none => b
  | some s => if s = "" then b else some s

/-- `String.prototype.trim` (ASCII whitespace). -/
def jsTrim (s : String) : String :=
  String.mk ((s.data.dropWhile Char.isWhitespace).reverse.dropWhile Char.isWhitespace).reverse

/-- `replace(/\s+/g, " ")`: each maximal whitespace run becomes one space.
The flag records whether the previous character was whitespace. -/
def collapseWsAux : Bool → List Char → List Char
  | _, [] => []
  | prevWs, c :: t =>
    if c.isWhitespace then
      if prevWs then collapseWsAux true t else ' ' :: collapseWsAux true t
    else c :: collapseWsAux false t

/-- `s.replace(/\s+/g, " ")`. -/
def collapseWs (s : String) : String := String.mk (collapseWsAux false s.data)

/-- `new URL(u).hostname`: the text between the scheme separator `"://"` and
the following `/`.  A string without the separator or with an empty host is
an invalid URL and the constructor throws (`Except.error`, with the
`TypeError`'s message). -/
def hostTail : List Char → Option (List Char)
  | [] => none
  | ':' :: '/' :: '/' :: rest => some rest
  | _ :: t => hostTail t

/-- `new URL(u).hostname` as the fetch code uses it (see `hostTail`). -/
def hostOf (u : String) : Except String String :=
  match hostTail u.data with
  | none => Except.error ("Invalid URL: " ++ u)
  | some rest =>
    let host := rest.takeWhile (· ≠ '/')
    if host.isEmpty then Except.error ("Invalid URL: " ++ u)
    else Except.ok (String.mk host)

/-- `parseDate(s, zone)` applied to an optional raw string: the
`if (!s) return null` guard, then the three-stage luxon parse (the oracle
`parse`). -/
def parseDateM (parse : String → Option Int) (s : Option String) : Option Int :=
  match s with
  | none => none
  | some str => if str = "" then none else parse str

/-- `NormalizedItem`: the record every strategy produces
(`{title, url, source, publishedISO, _text, originalUrl?}`); `publishedAt`
is the instant `publishedISO` renders (none when `publishedISO` is null). -/
structure Item where
  title : String
  url : String
  source : String
  publishedAt : Option Int
  matchText : String
  originalUrl : Option String := none
deriving Repr, DecidableEq

/-- `FUNDING_WORDS` of `src/api/headlines.js`. -/
def FUNDING_WORDS : List String := [
  "funding","funds","budget","budgets","aid","oda","official development assistance",
  "appropriation","appropriations","spending","cut","cuts","reduction","reductions",
  "increase","increases","pledge","pledges","grant","grants","donor","donors",
  "funding cut","budget cut","funding increase","budget increase",
  "fcdo","uk aid","usaid","state department","sida","norad","giz","kfw","afd",
  "global affairs canada","irish aid","dfat","dfatd","ausaid","nzaid",
  "jica","koica","adb","afdb","african development bank","isdb","islamic development bank",
  "world bank","ibrd","ida","ifc","imf","undp","wfp","unicef","oecd dac","eib","echo","eu humanitarian",
  "development finance","development assistance","official aid"]

/-- `DONOR_COUNTRY_TERMS` of `src/api/headlines.js`. -/
def DONOR_COUNTRY_TERMS : List String := [
  "united states","usa","u.s.","us ","canada","united kingdom","uk","britain","british",
  "australia","new zealand","ireland",
  "european union","eu","germany","german","france","french","netherlands","dutch",
  "norway","norwegian","sweden","swedish","denmark","danish","finland","finnish",
  "switzerland","swiss","spain","italy","belgium","austria","luxembourg","portugal",
  "japan","japanese","south korea","korea","korean"]

/-- `FUNDING_TRIGGERS = [...FUNDING_WORDS, ...DONOR_COUNTRY_TERMS]`. -/
def FUNDING_TRIGGERS : List String := FUNDING_WORDS ++ DONOR_COUNTRY_TERMS

/-- `DEFAULT_REGION_WORDS` of `src/api/headlines.js`. -/
def DEFAULT_REGION_WORDS : List String := [
  "africa","sub-saharan","sahel","horn of africa","east africa","west africa","central africa","southern africa",
  "south asia","southeast asia","asean",
  "ethiopia","zambia","rwanda","uganda","tanzania","kenya","burundi",
  "democratic republic of congo","drc","nigeria","benin","togo","senegal",
  "ivory coast","cote d'ivoire","mali","niger","south sudan",
  "bangladesh","indonesia","philippines","tibet","vietnam","sahel"]

/-- `matchAny(text, list)`: lower-case the text and test each keyword with
`includes`. -/
def matchAny (text : String) (list : List String) : Bool :=
  let t := jsToLower text
  list.any fun k => jsIncludes t k

/-- One luxon day of `minus({days})`, in epoch milliseconds. -/
def dayMs : Int := 86400000

/-- `isWithinDays(dt, days, zone)`: false for a null date, else
`dt >= DateTime.now().minus({days})`. -/
def isWithinDays (dt : Option Int) (days : Int) (now : Int) : Bool :=
  match dt with
  | none => false
  | some t => decide (now - days * dayMs ≤ t)

example : jsIncludes "hello world" "lo wo" = true := by decide
example : jsIncludes "hello" "zz" = false := by decide
example : jsToLower "USAID Cut" = "usaid cut" := by decide
example : jsTrim "  a b  " = "a b" := by decide
example : collapseWs "a \t\n b" = "a b" := by decide
example : hostOf "https://www.example.org/feed" = Except.ok "www.example.org" := rfl
example : hostOf "not a url" = Except.error "Invalid URL: not a url" := rfl
example : matchAny "New USAID grants announced" FUNDING_TRIGGERS = true := by decide

/-- One record of the ReliefWeb API's `json.data` array, as the code reads it
(`d?.fields?.title`, `d?.fields?.url`, `d?.fields?.date?.created`,
`d?.fields?.date?.original`; a missing path is `none`). -/
structure RWRecord where
  title : Option String
  url : Option String
  dateCreated : Option String
  dateOriginal : Option String
deriving Repr, DecidableEq

/-- The decoded ReliefWeb HTTP response: `resp.ok`, `resp.status` and the
parsed body's `data` field (`none` when the body has no `data`). -/
structure RWResponse where
  ok : Bool
  status : Nat
  data : Option (List RWRecord)
deriving Repr

/-- The request URL `fetchReliefWeb` builds; the per-source cap enters only
here, as the requested `limit`. -/
def reliefWebRequestUrl (cap : Nat) : String :=
  "https://api.reliefweb.int/v1/reports?appname=news-dashboard&profile=simple&sort[]=date:desc&limit="
    ++ toString cap

/-- The map `fetchReliefWeb` applies to each record of `json.data`. -/
def rwItemOf (parse : String → Option Int) (d : RWRecord) : Item :=
  let t := jsOrStr d.title "(no title)"
  let href := jsOrStr d.url ""
  let published := jsOrOpt d.dateCreated (jsOrOpt d.dateOriginal none)
  let dt := parseDateM parse published
  { title := t, url := href, source := "ReliefWeb Updates", publishedAt := dt,
    matchText := t ++ " ReliefWeb", originalUrl := none }

/-- `fetchReliefWeb(perSource, zone)`: on a non-2xx response it throws
`ReliefWeb API HTTP <status>`; otherwise it maps `json.data || []` with no
client-side truncation (`cap` only shapes `reliefWebRequestUrl`). -/
def fetchReliefWeb (cap : Nat) (resp : RWResponse) (parse : String → Option Int) :
    Except String (List Item) :=
  if resp.ok then Except.ok ((resp.data.getD []).map (rwItemOf parse))
  else Except.error ("ReliefWeb API HTTP " ++ toString resp.status)

/-- One card-like region (`.views-row, article, .card`) of the DonorTracker
listing page, holding what the scraper's selectors read from it:
`policyHref`/`policyText` come from the first `a[href^="/policy-"], a[href*="/policy-"]`
link (`none`/`""` when there is none), `hrefs` are the `href` attributes of
all `a[href]` descendants in document order, `firstLinkText` the text of the
first of them (`""` when there is none), `datetime` the `datetime` attribute
of the first `time[datetime]`. -/
structure Card where
  policyHref : Option String
  policyText : String
  hrefs : List String
  firstLinkText : String
  datetime : Option String
deriving Repr, DecidableEq

/-- The internal detail link: the first policy link's `href` (`|| ""`),
prefixed with the site origin when it is not already absolute. -/
def cardInternalHref (c : Card) : String :=
  let h := jsOrStr c.policyHref ""
  if h ≠ "" && !jsStartsWith h "http" then "https://donortracker.org" ++ h else h

/-- Absolutization inside the external-link loop: `http…` kept, `/…`
prefixed with the origin, anything else empty. -/
def dtAbsolute (href : String) : String :=
  if jsStartsWith href "http" then href
  else if jsStartsWith href "/" then "https://donortracker.org" ++ href
  else ""

/-- The `$el.find("a[href]").each` loop: the first absolutizable link that
does not point at donortracker.org (`return false` breaks there), else `""`. -/
def findExtHref : List String → String
  | [] => ""
  | h :: t =>
    let absolute := dtAbsolute h
    if absolute = "" then findExtHref t
    else if jsIncludes absolute "donortracker.org" then findExtHref t
    else absolute

/-- The card's external/original link. -/
def cardExtHref (c : Card) : String := findExtHref c.hrefs

/-- The card's title: the policy link's trimmed text, else the first link's
trimmed text, else `""`; then whitespace-collapsed and trimmed again. -/
def cardTitle (c : Card) : String :=
  let t0 := jsOrSS (jsTrim c.policyText) (jsOrSS (jsTrim c.firstLinkText) "")
  jsTrim (collapseWs t0)

/-- The card's link: `internalHref || extHref`. -/
def cardUrl (c : Card) : String := jsOrSS (cardInternalHref c) (cardExtHref c)

/-- The per-card body of the scrape loop: `if (!title || !url) return;` drops
the card, otherwise it becomes a NormalizedItem. -/
def processCard (parse : String → Option Int) (c : Card) : Option Item :=
  let internalHref := cardInternalHref c
  let extHref := cardExtHref c
  let title := cardTitle c
  let rawDate := jsOrStr c.datetime ""
  let dt := if rawDate = "" then none else parse rawDate
  let url := cardUrl c
  if title = "" || url = "" then none
  else some { title := title, url := url, source := "Donor Tracker — Policy Updates",
              publishedAt := dt, matchText := title ++ " DonorTracker",
              originalUrl := if internalHref ≠ "" && extHref ≠ "" then some extHref else none }

/-- The `$(...).each` accumulation: a card is skipped once the accumulator
already holds `perSource` items (`if (out.length >= perSource) return;`),
and otherwise contributes `processCard`'s item, if any. -/
def runCardsAux (cap : Nat) (parse : String → Option Int) :
    List Card → List Item → List Item
  | [], acc => acc
  | c :: cs, acc =>
    if cap ≤ acc.length then runCardsAux cap parse cs acc
    else
      match processCard parse c with
      | none => runCardsAux cap parse cs acc
      | some it => runCardsAux cap parse cs (acc ++ [it])

/-- All cards of one candidate page, folded with the cap. -/
def runCards (cap : Nat) (parse : String → Option Int) (cards : List Card) : List Item :=
  runCardsAux cap parse cards []

/-- The two candidate listing-page URLs `fetchDonorTracker` tries in order. -/
def dtCandidates : List String :=
  ["https://donortracker.org/policy_updates", "https://donortracker.org/policy-updates"]

/-- The candidate loop of `fetchDonorTracker`: `dtNet u` is the scraped card
list of candidate page `u` (`none` when the fetch failed or the response was
non-2xx).  A page whose cards yield no item falls through to the next
candidate (`if (out.length) return out`). -/
def fetchDTLoop (dtNet : String → Option (List Card)) (cap : Nat)
    (parse : String → Option Int) : List String → Option (List Item)
  | [] => none
  | u :: rest =>
    match dtNet u with
    | none => fetchDTLoop dtNet cap parse rest
    | some cards =>
      let out := runCards cap parse cards
      if out.length ≠ 0 then some out else fetchDTLoop dtNet cap parse rest

/-- `fetchDonorTracker(perSource, zone)`: first candidate page with at least
one item wins; if none yields an item the strategy throws
`DonorTracker scrape failed`. -/
def fetchDonorTracker (dtNet : String → Option (List Card)) (cap : Nat)
    (parse : String → Option Int) : Except String (List Item) :=
  match fetchDTLoop dtNet cap parse dtCandidates with
  | some items => Except.ok items
  | none => Except.error "DonorTracker scrape failed"

/-- One entry of a parsed syndication feed, with the fields the code reads. -/
structure FeedItem where
  title : Option String
  link : Option String
  guid : Option String
  isoDate : Option String
  pubDate : Option String
  published : Option String
  updated : Option String
deriving Repr, DecidableEq

/-- A feed `rss-parser` produced: its declared title and its `items` array. -/
structure Feed where
  title : Option String
  items : Option (List FeedItem)
deriving Repr

/-- The candidate-URL list of `fetchRSS`: the configured URL, plus the known
alternate feed locations when its host is thenewhumanitarian.org (a URL the
`new URL` constructor rejects keeps only itself, the `catch {}` branch). -/
def rssCandidates (url : String) : List String :=
  match hostOf url with
  | Except.error _ => [url]
  | Except.ok host =>
    if jsIncludes host "thenewhumanitarian.org" then
      [url,
       "https://www.thenewhumanitarian.org/rss.xml",
       "https://www.thenewhumanitarian.org/feeds/all.rss",
       "https://thenewhumanitarian.org/rss.xml"]
    else [url]

/-- The map `fetchRSS` applies to each of the first `cap` feed entries. -/
def rssItemOf (feedTitle : String) (parse : String → Option Int) (it : FeedItem) : Item :=
  { title := jsOrStr it.title "(no title)"
    url := jsOrStr it.link (jsOrStr it.guid "")
    source := feedTitle
    publishedAt := parseDateM parse
      (jsOrOpt it.isoDate (jsOrOpt it.pubDate (jsOrOpt it.published it.updated)))
    matchText := jsOrStr it.title "" ++ " " ++ feedTitle
    originalUrl := none }

/-- The source label `feed.title || new URL(c).host`; when the fallback
itself throws (no declared title and an unparsable candidate URL), the
enclosing `try` moves to the next candidate. -/
def rssTitleOf (c : String) (feed : Feed) : Except String String :=
  match feed.title with
  | none => hostOf c
  | some t => if t = "" then hostOf c else Except.ok t

/-- The candidate loop of `fetchRSS`: `net c` is the parsed feed of
candidate `c` (`none` when the fetch failed, the response was non-2xx, or
parsing threw); the first structurally valid candidate returns up to `cap`
mapped entries. -/
def fetchRSSLoop (net : String → Option Feed) (cap : Nat)
    (parse : String → Option Int) : List String → Option (List Item)
  | [] => none
  | c :: rest =>
    match net c with
    | none => fetchRSSLoop net cap parse rest
    | some feed =>
      match rssTitleOf c feed with
      | Except.error _ => fetchRSSLoop net cap parse rest
      | Except.ok title =>
        some (((feed.items.getD []).take cap).map (rssItemOf title parse))

/-- `fetchRSS(url, perSource, zone)`: first structurally valid candidate
wins; if every candidate fails the strategy throws `RSS failed for <url>`. -/
def fetchRSS (net : String → Option Feed) (url : String) (cap : Nat)
    (parse : String → Option Int) : Except String (List Item) :=
  match fetchRSSLoop net cap parse (rssCandidates url) with
  | some items => Except.ok items
  | none => Except.error ("RSS failed for " ++ url)

/-- One entry of `cfg.news.sources`: a plain URL string or `{url: string}`
(`typeof entry === "string" ? entry : entry.url`). -/
inductive ConfigEntry where
  | str (url : String)
  | obj (url : String)
deriving Repr, DecidableEq

/-- The URL the dispatcher extracts from an entry. -/
def entryUrl : ConfigEntry → String
  | ConfigEntry.str u => u
  | ConfigEntry.obj u => u

/-- The network environment one invocation observes: the ReliefWeb response,
the scraped cards per DonorTracker candidate page, and the parsed feed per
RSS candidate URL. -/
structure Env where
  rw : RWResponse
  dtNet : String → Option (List Card)
  net : String → Option Feed

/-- Strategy selection and execution for one source URL, the `try` body of
the dispatcher: `new URL(url).hostname` (which may throw), then the first
host-substring match picks the strategy. -/
def fetchSource (env : Env) (cap : Nat) (parse : String → Option Int) (url : String) :
    Except String (List Item) :=
  match hostOf url with
  | Except.error e => Except.error e
  | Except.ok host =>
    if jsIncludes host "reliefweb.int" then fetchReliefWeb cap env.rw parse
    else if jsIncludes host "donortracker.org" then fetchDonorTracker env.dtNet cap parse
    else fetchRSS env.net url cap parse

/-- The error-sentinel NormalizedItem the dispatcher's `catch` builds:
`title` embeds the URL and the caught error's message
(`Failed to fetch: ${url} (${e.message})`). -/
def errorSentinel (url msg : String) : Item :=
  { title := "Failed to fetch: " ++ url ++ " (" ++ msg ++ ")"
    url := ""
    source := "error"
    publishedAt := none
    matchText := "error"
    originalUrl := none }

/-- The dispatcher's `try`/`catch` around one strategy call: a thrown failure
becomes the single error sentinel, in place. -/
def settle (url : String) : Except String (List Item) → List Item
  | Except.ok items => items
  | Except.error msg => [errorSentinel url msg]

/-- One source's complete per-source computation inside `Promise.all`. -/
def runSource (env : Env) (cap : Nat) (parse : String → Option Int)
    (entry : ConfigEntry) : List Item :=
  let url := entryUrl entry
  settle url (fetchSource env cap parse url)

/-- The fan-out `await Promise.all(sources.map(...))`: one item list per
configured source, in input order. -/
def dispatch (env : Env) (cap : Nat) (parse : String → Option Int)
    (sources : List ConfigEntry) : List (List Item) :=
  sources.map (runSource env cap parse)

/-- The body of `flat.filter`: funding classification against the merged
trigger list, regional classification against the configured region words,
the two recency windows, and the inclusion predicate
`(isFunding && fundingRecent) || (hasRegion && recent)`. -/
def includeItem (regionWords : List String) (maxAgeDays : Int) (now : Int)
    (it : Item) : Bool :=
  let text := jsToLower it.matchText
  let isFunding := matchAny text FUNDING_TRIGGERS
  let hasRegion := matchAny text regionWords
  let dt := it.publishedAt
  let recent := isWithinDays dt maxAgeDays now
  let fundingRecent := isWithinDays dt 7 now || dt.isNone
  (isFunding && fundingRecent) || (hasRegion && recent)

/-- The ranker's key comparison.  In the source the key is the ISO rendering
`publishedISO` with `null` as `""`, compared by `localeCompare`: every
`toISO` rendering in the one configured zone is a nonempty string whose
lexicographic order agrees with the instant order, and `""` precedes all of
them, so the comparison is carried by the instants with `none` below every
date. -/
def keyLe : Option Int → Option Int → Bool
  | none, _ => true
  | some _, none => false
  | some a, some b => decide (a ≤ b)

/-- `a` may precede `b` in the ranked output: the sort comparator
`(a, b) => (b.publishedISO || "").localeCompare(a.publishedISO || "")` is
non-positive, i.e. `b`'s key is at most `a`'s (descending order). -/
def rankRel (a b : Item) : Prop := keyLe b.publishedAt a.publishedAt = true

instance : DecidableRel rankRel := fun a b =>
  inferInstanceAs (Decidable (keyLe b.publishedAt a.publishedAt = true))

theorem keyLe_total (x y : Option Int) : keyLe x y = true ∨ keyLe y x = true := by
  cases x <;> cases y <;> simp [keyLe] <;> omega

theorem keyLe_trans {x y z : Option Int} (h₁ : keyLe x y = true) (h₂ : keyLe y z = true) :
    keyLe x z = true := by
  cases x <;> cases y <;> cases z <;> simp_all [keyLe] <;> omega

instance : IsTotal Item rankRel := ⟨fun a b => keyLe_total b.publishedAt a.publishedAt⟩

instance : IsTrans Item rankRel :=
  ⟨fun _ _ _ hab hbc => keyLe_trans hbc hab⟩

/-- `filtered.sort(comparator)`: ECMAScript `Array.prototype.sort` is a
stable sort consistent with the comparator, so with the total preorder
`rankRel` the output is the unique stable descending reordering — modelled
by the stable `List.insertionSort`. -/
def rankItems (l : List Item) : List Item := List.insertionSort rankRel l

/-- The configuration document, with the fields `handler` reads
(a missing/absent field is `none`). -/
structure Config where
  timezone : Option String
  maxAgeDays : Option Int
  regions : Option (List String)
  perSource : Option Nat
  sources : Option (List ConfigEntry)

/-- One element of the response's `news` array
(`{title, url, source, published, originalUrl}`; `originalUrl || undefined`
drops a falsy value). -/
structure OutItem where
  title : String
  url : String
  source : String
  published : Option Int
  originalUrl : Option String
deriving Repr, DecidableEq

/-- The final projection `filtered.map(({title, url, source, publishedISO,
originalUrl}) => ...)`. -/
def toOut (it : Item) : OutItem :=
  { title := it.title, url := it.url, source := it.source,
    published := it.publishedAt,
    originalUrl :=
      match it.originalUrl with
      | none => none
      | some s => if s = "" then none else some s }

/-- The JSON body `res.json(...)` sends: `news`, `count`, and whichever of
`timezone` / `error` the branch includes. -/
structure ApiBody where
  news : List OutItem
  count : Nat
  timezone : Option String
  error : Option String
deriving Repr, DecidableEq

/-- The HTTP response: `res.status(...)` plus the JSON body. -/
structure ApiResponse where
  status : Nat
  body : ApiBody
deriving Repr, DecidableEq

/-- The exported `handler`: `loadConfig`'s outcome (`Except`, a rejection
carrying `String(err)`), then the pipeline — defaults, dispatch, flatten,
filter, rank, project — inside the top-level `try`; the `catch` answers
`200` with a zero-item body carrying the error string. -/
def handler (cfgRes : Except String Config) (env : Env) (now : Int)
    (parse : String → Option Int) : ApiResponse :=
  match cfgRes with
  | Except.error err => { status := 200, body := { news := [], count := 0, timezone := none, error := some err } }
  | Except.ok cfg =>
    let zone := jsOrStr cfg.timezone "UTC"
    let maxAgeDays := cfg.maxAgeDays.getD 3
    let regionWords :=
      match cfg.regions with
      | some rs => if 0 < rs.length then rs.map jsToLower else DEFAULT_REGION_WORDS
      | none => DEFAULT_REGION_WORDS
    let perSource := cfg.perSource.getD 10
    let sources := cfg.sources.getD []
    let results := dispatch env perSource parse sources
    let flat := results.flatten
    let filtered := flat.filter (includeItem regionWords maxAgeDays now)
    let ranked := rankItems filtered
    let out := ranked.map toOut
    { status := 200, body := { news := out, count := out.length, timezone := some zone, error := none } }

/-! ## Claim theorems -/

/-- C2: for every list of configured sources, dispatch returns exactly one
per-source result for each source, in the same order as the input list
(`result[i]` corresponds to `source[i]`), regardless of which sources fail. -/
theorem claim_C2_dispatch_one_result_per_source_in_order
    (env : Env) (cap : Nat) (parse : String → Option Int)
    (sources : List ConfigEntry) :
    (dispatch env cap parse sources).length = sources.length
    ∧ ∀ i : Nat, (dispatch env cap parse sources)[i]? =
        (sources[i]?).map (runSource env cap parse) := by
  refine ⟨List.length_map _ _, fun i => ?_⟩
  simp [dispatch]

/-- C7: the core never signals a hard failure: a pipeline-level fault is
answered with status 200 and a zero-item success-shaped body carrying the
error string, and the success branch also has status 200. -/
theorem claim_C7_top_level_failure_is_soft
    (env : Env) (now : Int) (parse : String → Option Int) (err : String)
    (cfg : Config) :
    handler (Except.error err) env now parse =
      { status := 200, body := { news := [], count := 0, timezone := none, error := some err } }
    ∧ (handler (Except.ok cfg) env now parse).status = 200 :=
  ⟨rfl, rfl⟩

/-- C10: in both the success branch and the internal-failure branch, the
response body satisfies `count = news.length`. -/
theorem claim_C10_count_matches_news_length
    (cfgRes : Except String Config) (env : Env) (now : Int)
    (parse : String → Option Int) :
    (handler cfgRes env now parse).body.count =
      (handler cfgRes env now parse).body.news.length := by
  cases cfgRes <;> rfl

/-- A normalized item whose match text contains a donor term, dated 6 days
before the evaluation instant. -/
def itemDonor6 : Item :=
  { title := "USAID pledges new grants", url := "https://example.org/a",
    source := "Example Wire", publishedAt := some (-(6 * dayMs)),
    matchText := "USAID pledges new grants Example Wire", originalUrl := none }

/-- The identical item dated 8 days before the evaluation instant. -/
def itemDonor8 : Item := { itemDonor6 with publishedAt := some (-(8 * dayMs)) }

/-- C4: an item is funding-eligible iff its date is null or within the fixed
7-day window of the evaluation instant — the window does not mention the
configured `maxAgeDays`; concretely, the donor-term item 6 days old is
included under `maxAgeDays = 3` and the identical item 8 days old is not. -/
theorem claim_C4_funding_window_fixed_seven_days :
    (∀ (dt : Option Int) (now : Int),
        (isWithinDays dt 7 now || dt.isNone) = true ↔
          dt = none ∨ ∃ t : Int, dt = some t ∧ now - 7 * dayMs ≤ t)
    ∧ includeItem DEFAULT_REGION_WORDS 3 0 itemDonor6 = true
    ∧ includeItem DEFAULT_REGION_WORDS 3 0 itemDonor8 = false := by
  refine ⟨fun dt now => ?_, by decide, by decide⟩
  cases dt <;> simp [isWithinDays]

/-- A normalized item whose match text contains a configured region term,
dated 2 days before the evaluation instant. -/
def itemRegion2 : Item :=
  { title := "Kenya village school reopens", url := "https://example.org/k",
    source := "News Desk", publishedAt := some (-(2 * dayMs)),
    matchText := "Kenya village school reopens News Desk", originalUrl := none }

/-- The identical item with no parseable date. -/
def itemRegionND : Item := { itemRegion2 with publishedAt := none }

/-- C5: an item is region-eligible iff its date is non-null and within the
configured `maxAgeDays` window; a dateless item never passes the regional
conjunct; concretely, the region-term item 2 days old is included under
`maxAgeDays = 3` and the identical dateless item is excluded. -/
theorem claim_C5_region_window_requires_date :
    (∀ (dt : Option Int) (maxAgeDays now : Int),
        isWithinDays dt maxAgeDays now = true ↔
          ∃ t : Int, dt = some t ∧ now - maxAgeDays * dayMs ≤ t)
    ∧ (∀ (regionWords : List String) (text : String) (maxAgeDays now : Int),
        (matchAny text regionWords && isWithinDays none maxAgeDays now) = false)
    ∧ includeItem DEFAULT_REGION_WORDS 3 0 itemRegion2 = true
    ∧ includeItem DEFAULT_REGION_WORDS 3 0 itemRegionND = false := by
  refine ⟨fun dt maxAgeDays now => ?_, fun _ _ _ _ => ?_, by decide, by decide⟩
  · cases dt <;> simp [isWithinDays]
  · simp [isWithinDays]

/-- An environment in which every feed fetch fails, so a generic-feed source
falls into the dispatcher's `catch`. -/
def envRSSFail : Env :=
  { rw := { ok := true, status := 200, data := some [] },
    dtNet := fun _ => none,
    net := fun _ => none }

/-- C1, counterexample: for a failing feed source the dispatcher does return
a single sentinel with `url = ""`, `source = "error"`, `publishedAt = null`,
but its title is `Failed to fetch: <url> (<error message>)`, not the claimed
`Failed to fetch: <url>`. -/
theorem claim_C1_counterexample :
    runSource envRSSFail 10 (fun _ => none) (ConfigEntry.str "https://example.org/feed") =
      [errorSentinel "https://example.org/feed" "RSS failed for https://example.org/feed"]
    ∧ (errorSentinel "https://example.org/feed"
        "RSS failed for https://example.org/feed").title ≠
        "Failed to fetch: https://example.org/feed" :=
  ⟨rfl, by decide⟩

/-- C1, amended: for every source whose selected strategy fails with message
`msg`, the dispatcher does not raise and returns, in that source's position,
exactly one error-sentinel item with title
`Failed to fetch: <url> (<msg>)`, url `""`, source `"error"` and null date. -/
theorem claim_C1_error_sentinel_shape
    (env : Env) (cap : Nat) (parse : String → Option Int) (entry : ConfigEntry) :
    runSource env cap parse entry =
      settle (entryUrl entry) (fetchSource env cap parse (entryUrl entry))
    ∧ ∀ msg : String,
        settle (entryUrl entry) (Except.error msg) =
          [{ title := "Failed to fetch: " ++ entryUrl entry ++ " (" ++ msg ++ ")",
             url := "", source := "error", publishedAt := none,
             matchText := "error", originalUrl := none }] :=
  ⟨rfl, fun _ => rfl⟩

/-- The decoded ReliefWeb response for an HTTP 500. -/
def rwResp500 : RWResponse := { ok := false, status := 500, data := none }

/-- C3, counterexample: a non-2xx ReliefWeb response does not yield an empty
item list — the strategy throws `ReliefWeb API HTTP 500` (and no error
string of the form `HTTP <status>` is recorded anywhere). -/
theorem claim_C3_counterexample :
    fetchReliefWeb 10 rwResp500 (fun _ => none) =
      Except.error "ReliefWeb API HTTP 500"
    ∧ fetchReliefWeb 10 rwResp500 (fun _ => none) ≠ Except.ok [] :=
  ⟨rfl, fun h => Except.noConfusion h⟩

/-- C3, amended: a non-2xx ReliefWeb response makes the strategy throw an
error with message `ReliefWeb API HTTP <status>`; the dispatcher catches it,
so the source contributes a single error sentinel embedding that message and
no exception propagates past the dispatcher. -/
theorem claim_C3_non2xx_throws_and_is_settled
    (cap : Nat) (resp : RWResponse) (parse : String → Option Int)
    (h : resp.ok = false) :
    fetchReliefWeb cap resp parse =
      Except.error ("ReliefWeb API HTTP " ++ toString resp.status)
    ∧ ∀ url : String,
        settle url (fetchReliefWeb cap resp parse) =
          [errorSentinel url ("ReliefWeb API HTTP " ++ toString resp.status)] := by
  have hr : fetchReliefWeb cap resp parse =
      Except.error ("ReliefWeb API HTTP " ++ toString resp.status) := by
    simp [fetchReliefWeb, h]
  exact ⟨hr, fun url => by rw [hr]; rfl⟩

/-- C3, witness: the amended claim at HTTP 500 with cap 10. -/
theorem claim_C3_witness :
    settle "https://api.reliefweb.int/v1/reports"
        (fetchReliefWeb 10 rwResp500 (fun _ => none)) =
      [errorSentinel "https://api.reliefweb.int/v1/reports" "ReliefWeb API HTTP 500"] :=
  (claim_C3_non2xx_throws_and_is_settled 10 rwResp500 (fun _ => none) rfl).2
    "https://api.reliefweb.int/v1/reports"

/-- A scraped card with a usable title (the text of its only link) but no
usable link: its sole `href` is a `mailto:`, which absolutizes to `""`. -/
def cardTitleOnly : Card :=
  { policyHref := none, policyText := "",
    hrefs := ["mailto:info@example.org"],
    firstLinkText := "Contact the aid policy team", datetime := none }

/-- C8, counterexample: a card with a usable title and no usable link is
dropped by `if (!title || !url) return;`, though the claim says a card with
at least one of the two yields an item. -/
theorem claim_C8_counterexample :
    cardTitle cardTitleOnly ≠ ""
    ∧ cardUrl cardTitleOnly = ""
    ∧ processCard (fun _ => none) cardTitleOnly = none :=
  ⟨by decide, by decide, by decide⟩

/-- C8, amended: a card is dropped exactly when it lacks a usable title OR
lacks a usable link; only a card with both yields a normalized item. -/
theorem claim_C8_card_dropped_iff_missing_title_or_url
    (parse : String → Option Int) (c : Card) :
    processCard parse c = none ↔ cardTitle c = "" ∨ cardUrl c = "" := by
  by_cases ht : cardTitle c = "" <;> by_cases hu : cardUrl c = "" <;>
    simp [processCard, ht, hu]

/-- The card fold never grows the accumulator past the cap. -/
theorem runCardsAux_length_le (cap : Nat) (parse : String → Option Int) :
    ∀ (cs : List Card) (acc : List Item), acc.length ≤ cap →
      (runCardsAux cap parse cs acc).length ≤ cap := by
  intro cs
  induction cs with
  | nil => intro acc h; simpa [runCardsAux] using h
  | cons c cs ih =>
    intro acc h
    by_cases hlen : cap ≤ acc.length
    · simpa [runCardsAux, hlen] using ih acc h
    · cases hp : processCard parse c with
      | none => simpa [runCardsAux, hlen, hp] using ih acc h
      | some it =>
        have : (acc ++ [it]).length ≤ cap := by simp; omega
        simpa [runCardsAux, hlen, hp] using ih (acc ++ [it]) this

/-- Every successful DonorTracker candidate page yields at most `cap` items. -/
theorem fetchDTLoop_length_le (dtNet : String → Option (List Card)) (cap : Nat)
    (parse : String → Option Int) :
    ∀ (cs : List String) (items : List Item),
      fetchDTLoop dtNet cap parse cs = some items → items.length ≤ cap := by
  intro cs
  induction cs with
  | nil => intro items h; simp [fetchDTLoop] at h
  | cons u rest ih =>
    intro items h
    simp only [fetchDTLoop] at h
    cases hn : dtNet u with
    | none => simp only [hn] at h; exact ih items h
    | some cards =>
      simp only [hn] at h
      by_cases hz : (runCards cap parse cards).length ≠ 0
      · rw [if_pos hz] at h
        cases h
        exact runCardsAux_length_le cap parse cards [] (by simp)
      · rw [if_neg hz] at h
        exact ih items h

/-- Every successful RSS candidate yields at most `cap` items. -/
theorem fetchRSSLoop_length_le (net : String → Option Feed) (cap : Nat)
    (parse : String → Option Int) :
    ∀ (cs : List String) (items : List Item),
      fetchRSSLoop net cap parse cs = some items → items.length ≤ cap := by
  intro cs
  induction cs with
  | nil => intro items h; simp [fetchRSSLoop] at h
  | cons c rest ih =>
    intro items h
    simp only [fetchRSSLoop] at h
    cases hn : net c with
    | none => simp only [hn] at h; exact ih items h
    | some feed =>
      simp only [hn] at h
      cases ht : rssTitleOf c feed with
      | error e => simp only [ht] at h; exact ih items h
      | ok title =>
        simp only [ht] at h
        cases h
        simp [List.length_take]

/-- A ReliefWeb success response carrying one more record than the requested
limit (the remote ignoring `limit=1`). -/
def rwRespTwo : RWResponse :=
  { ok := true, status := 200,
    data := some [{ title := none, url := none, dateCreated := none, dateOriginal := none },
                  { title := none, url := none, dateCreated := none, dateOriginal := none }] }

/-- C9, counterexample: the report strategy performs no client-side
truncation, so a success response with 2 records under cap 1 produces a
2-item result, breaking `length ≤ cap`. -/
theorem claim_C9_counterexample :
    ((fetchReliefWeb 1 rwRespTwo (fun _ => none)).toOption.getD []).length = 2
    ∧ ¬ ((fetchReliefWeb 1 rwRespTwo (fun _ => none)).toOption.getD []).length ≤ 1 := by
  constructor <;> decide

/-- C9, amended: the RSS and HTML-scrape strategies truncate to the cap and
a failed fetch contributes exactly one sentinel item, but the report
strategy returns one item per record of the response body — the cap reaches
it only as the requested limit (`reliefWebRequestUrl`), with no client-side
truncation. -/
theorem claim_C9_per_source_cap :
    (∀ (net : String → Option Feed) (url : String) (cap : Nat)
        (parse : String → Option Int) (items : List Item),
        fetchRSS net url cap parse = Except.ok items → items.length ≤ cap)
    ∧ (∀ (dtNet : String → Option (List Card)) (cap : Nat)
        (parse : String → Option Int) (items : List Item),
        fetchDonorTracker dtNet cap parse = Except.ok items → items.length ≤ cap)
    ∧ (∀ url msg : String, (settle url (Except.error msg)).length = 1)
    ∧ (∀ (cap : Nat) (resp : RWResponse) (parse : String → Option Int),
        resp.ok = true →
          fetchReliefWeb cap resp parse =
            Except.ok ((resp.data.getD []).map (rwItemOf parse))) := by
  refine ⟨fun net url cap parse items h => ?_,
          fun dtNet cap parse items h => ?_,
          fun _ _ => rfl,
          fun cap resp parse h => by simp [fetchReliefWeb, h]⟩
  · simp only [fetchRSS] at h
    cases hl : fetchRSSLoop net cap parse (rssCandidates url) with
    | none => rw [hl] at h; exact absurd h (by simp)
    | some its =>
      rw [hl] at h
      cases h
      exact fetchRSSLoop_length_le net cap parse _ items hl
  · simp only [fetchDonorTracker] at h
    cases hl : fetchDTLoop dtNet cap parse dtCandidates with
    | none => rw [hl] at h; exact absurd h (by simp)
    | some its =>
      rw [hl] at h
      cases h
      exact fetchDTLoop_length_le dtNet cap parse _ items hl

/-- Stability of the ranker: for each key, the items carrying that key come
out in their pre-sort relative order. -/
theorem rankItems_filter_key (l : List Item) (k : Option Int) :
    (rankItems l).filter (fun it => it.publishedAt == k) =
      l.filter (fun it => it.publishedAt == k) := by
  have hpw : (l.filter (fun it => it.publishedAt == k)).Pairwise rankRel := by
    apply List.pairwise_of_forall_mem_list
    intro a ha b hb
    have hak : a.publishedAt = k := by simpa using (List.mem_filter.mp ha).2
    have hbk : b.publishedAt = k := by simpa using (List.mem_filter.mp hb).2
    show keyLe b.publishedAt a.publishedAt = true
    rw [hak, hbk]
    cases k <;> simp [keyLe]
  have hsub : List.Sublist (l.filter (fun it => it.publishedAt == k)) (rankItems l) :=
    List.sublist_insertionSort hpw (List.filter_sublist l)
  have hself : (l.filter (fun it => it.publishedAt == k)).filter
      (fun it => it.publishedAt == k) = l.filter (fun it => it.publishedAt == k) :=
    List.filter_eq_self.mpr fun a ha => (List.mem_filter.mp ha).2
  have h2 := hsub.filter (fun it => it.publishedAt == k)
  rw [hself] at h2
  have hlen : (l.filter (fun it => it.publishedAt == k)).length =
      ((rankItems l).filter (fun it => it.publishedAt == k)).length := by
    have hperm : List.Perm (rankItems l) l := List.perm_insertionSort rankRel l
    simpa [List.countP_eq_length_filter] using
      (hperm.countP_eq (fun it => it.publishedAt == k)).symm
  exact (h2.eq_of_length hlen).symm

/-- A dated item, the newest of the ranking example. -/
def itemT1 : Item :=
  { title := "T1", url := "", source := "s", publishedAt := some 200,
    matchText := "", originalUrl := none }

/-- A dated item older than `itemT1`. -/
def itemT2 : Item := { itemT1 with title := "T2", publishedAt := some 100 }

/-- An undated item. -/
def itemU : Item := { itemT1 with title := "U", publishedAt := none }

/-- C6: the ranker permutes the included items into non-increasing
`publishedAt` order with every null-dated item after all dated items, and it
is stable — items with equal keys (in particular all null-dated items) keep
their pre-sort relative order; on the concrete example with dates
`T1 > T2` and one undated `U`, the output is `[T1, T2, U]`. -/
theorem claim_C6_ranker_stable_descending (l : List Item) :
    List.Perm (rankItems l) l
    ∧ (rankItems l).Pairwise rankRel
    ∧ (rankItems l).Pairwise (fun a b => a.publishedAt = none → b.publishedAt = none)
    ∧ (rankItems l).Pairwise (fun a b => ∀ ta tb : Int,
        a.publishedAt = some ta → b.publishedAt = some tb → tb ≤ ta)
    ∧ (∀ k : Option Int,
        (rankItems l).filter (fun it => it.publishedAt == k) =
          l.filter (fun it => it.publishedAt == k))
    ∧ rankItems [itemT2, itemU, itemT1] = [itemT1, itemT2, itemU] := by
  have hsorted : (rankItems l).Pairwise rankRel := List.sorted_insertionSort rankRel l
  refine ⟨List.perm_insertionSort rankRel l, hsorted, ?_, ?_,
    rankItems_filter_key l, by decide⟩
  · refine hsorted.imp fun {a b} h => ?_
    intro hna
    have h' : keyLe b.publishedAt a.publishedAt = true := h
    rw [hna] at h'
    cases hb : b.publishedAt with
    | none => rfl
    | some t => rw [hb] at h'; simp [keyLe] at h'
  · refine hsorted.imp fun {a b} h => ?_
    intro ta tb hta htb
    have h' : keyLe b.publishedAt a.publishedAt = true := h
    rw [hta, htb] at h'
    simpa [keyLe] using h' 
